import Mathlib

/-!
Shallow embedding of the azureml-pysdk2-template helper modules
(`core/_aml.py` and `core/build_/__aml_env.py`) and proofs about the
behaviour their specification claims.

Conventions of the embedding:
* Python values that flow through `DataSchema` (str, int, float, bool,
  None) are modelled by `Option PyVal`; a float is represented only by
  the information the code observes about it: its type tag and whether
  it is zero (its truthiness).
* Raising an exception is modelled by `Except.error` carrying the
  message (for `ValueError` and assertion messages, the formatted text;
  for other exception kinds, a short tag).
* Filesystem lookups (`Path(...).is_file() or Path(...).is_dir()`) are
  modelled by an explicit parameter `fs : String → Bool`.
* `os.environ` is modelled by an explicit `envv : String → Option String`.
* `datetime.now().timestamp()` truncated to seconds is modelled by an
  explicit parameter `now : Nat`.
-/

/-- Model of the Python values `DataSchema` handles: `str`, `int`,
`float` and `bool`. A float carries only its truthiness tag (`isZero`),
which is everything the embedded code ever inspects about it. Python
`bool` is a subclass of `int`, but every `isinstance` test in the source
checks `bool` before `int`, so disjoint tags are faithful. -/
inductive PyVal where
  | str (s : String)
  | int (n : Int)
  | float (isZero : Bool)
  | bool (b : Bool)
deriving DecidableEq, Repr

/-- Python truthiness of a `PyVal` (used by the `value or self.default_value`
expression in `DataSchema.__to_aml`). -/
def pyTruthy : PyVal → Bool
  | .str s => !s.isEmpty
  | .int n => !(n == 0)
  | .float isZero => !isZero
  | .bool b => b

/-- Characters Python `str.strip()` removes (ASCII whitespace). -/
def pyIsSpace (c : Char) : Bool :=
  c = ' ' || c = '\t' || c = '\n' || c = '\r' || c = '\x0b' || c = '\x0c'

/-- Python `str.strip()` on a character list. -/
def pyStrip (cs : List Char) : List Char :=
  ((cs.dropWhile pyIsSpace).reverse.dropWhile pyIsSpace).reverse

/-- Python `s.split(sep)` for a one-character separator `c`: splits on
every occurrence, keeping empty segments, never returning `[]`. -/
def splitCh (c : Char) : List Char → List (List Char)
  | [] => [[]]
  | x :: xs =>
    if x = c then [] :: splitCh c xs
    else
      match splitCh c xs with
      | [] => [[x]]
      | y :: ys => (x :: y) :: ys

/-- Drop one leading slash, as `path[1:]` after a `startswith("/")` check. -/
def dropLeadSlash : List Char → List Char
  | [] => []
  | x :: xs => if x = '/' then xs else x :: xs

/-- The slash-normalisation step of `DataSchema.__get_ds_uri`: locate the
first `:` (none when the string has no colon, modelling the `ValueError`
of `str.index`), and when the character right after it is `/`, remove
that character. -/
def fixSlash : List Char → Option (List Char)
  | [] => none
  | x :: xs =>
    if x = ':' then some (x :: dropLeadSlash xs)
    else (fixSlash xs).map (fun r => x :: r)

/-- Whether `needle` is a leading run of `hay` (character lists). -/
def listStartsWith : List Char → List Char → Bool
  | _, [] => true
  | [], _ :: _ => false
  | h :: t, n :: m => h = n && listStartsWith t m

/-- Python `s.startswith(p)` (kernel-reducible prefix test on the
character lists). -/
def strStartsWith (s p : String) : Bool :=
  listStartsWith s.data p.data

/-- Python `c in s` for a single character `c`. -/
def strHasChar (s : String) (c : Char) : Bool :=
  s.data.contains c

/-- Equality of `Except` values is decidable componentwise. -/
instance exceptDecEq {ε α : Type} [DecidableEq ε] [DecidableEq α] :
    DecidableEq (Except ε α) := fun x y =>
  match x, y with
  | Except.ok a, Except.ok b =>
    if h : a = b then isTrue (by rw [h])
    else isFalse (fun hc => h (Except.ok.inj hc))
  | Except.error a, Except.error b =>
    if h : a = b then isTrue (by rw [h])
    else isFalse (fun hc => h (Except.error.inj hc))
  | Except.ok _, Except.error _ => isFalse (fun hc => Except.noConfusion hc)
  | Except.error _, Except.ok _ => isFalse (fun hc => Except.noConfusion hc)

/-- The identifiers `DataSchema.__get_ds_uri` reads from the injected
`MLClient`. -/
structure MLClientInfo where
  subscription_id : String
  resource_group_name : String
  workspace_name : String
deriving DecidableEq, Repr

/-- The datastore URI template shared (textually) by `get_aml_uri` and
`DataSchema.__get_ds_uri`. -/
def amlUri (subs rg ws ds pth : String) : String :=
  "azureml://subscriptions/" ++ subs ++ "/resourcegroups/" ++ rg ++
    "/workspaces/" ++ ws ++ "/datastores/" ++ ds ++ "/paths/" ++ pth

/-- Model of `DataSchema.__get_ds_uri`: normalise a single slash right
after the first colon, then split on `:` and substitute segments 0 and 1
into the URI template. No whitespace stripping is performed. -/
def get_ds_uri (client : MLClientInfo) (short_uri : String) : Except String String :=
  match fixSlash short_uri.data with
  | none => Except.error "ValueError: substring not found"
  | some cs =>
    match splitCh ':' cs with
    | p0 :: p1 :: _ =>
      Except.ok (amlUri client.subscription_id client.resource_group_name
        client.workspace_name (String.mk p0) (String.mk p1))
    | _ => Except.error "IndexError: list index out of range"

/-- Model of the module-level `get_aml_uri`: split on `:`, strip both
segments, drop one leading slash from the path, then substitute ambient
identifiers read from `os.environ`. -/
def get_aml_uri (envv : String → Option String) (short_path : String) :
    Except String String :=
  match splitCh ':' short_path.data with
  | p0 :: p1 :: _ =>
    let ds := pyStrip p0
    let pth := dropLeadSlash (pyStrip p1)
    match envv "SUBSCRIPTION_ID" with
    | none => Except.error "KeyError: SUBSCRIPTION_ID"
    | some subs =>
      match envv "RESOURCE_GROUP" with
      | none => Except.error "KeyError: RESOURCE_GROUP"
      | some rg =>
        match envv "WORKSPACE_NAME" with
        | none => Except.error "KeyError: WORKSPACE_NAME"
        | some ws =>
          Except.ok (amlUri subs rg ws (String.mk ds) (String.mk pth))
  | _ => Except.error "IndexError: list index out of range"

/-- Python `repr` of a list of strings, as interpolated into the
unsupported-mode message: brackets, comma-space separation, each element
single-quoted. -/
def pyListRepr (l : List String) : String :=
  "[" ++ String.intercalate ", " (l.map (fun s => "\x27" ++ s ++ "\x27")) ++ "]"

/-- Python `repr` of a tuple of strings, as interpolated into the
unsupported-data-type assertion message. -/
def pyTupleRepr (l : List String) : String :=
  "(" ++ String.intercalate ", " (l.map (fun s => "\x27" ++ s ++ "\x27")) ++ ")"

/-- `DataSchema.IO_MODES["INPUT"]` (first element is the default). -/
def IO_MODES_INPUT : List String :=
  [ "ro_mount", "download", "direct", "rw_mount"]

/-- `DataSchema.IO_MODES["OUTPUT"]` (first element is the default). -/
def IO_MODES_OUTPUT : List String :=
  [ "rw_mount", "upload", "direct"]

/-- `DataSchema.INPUTS`, the tuple of supported data types. -/
def INPUTS : List String :=
  [ "uri_folder", "uri_file", "mltable", "mlflow_model", "custom_model",
    "integer", "number", "string", "boolean"]

/-- State of a constructed `DataSchema` object. -/
structure DataSchema where
  default_value : Option PyVal
  data_type : Option String
  description : Option String
  client : MLClientInfo
deriving DecidableEq, Repr

/-- Formatted text of the `DataSchema.__validate` assertion failure. -/
def unsupportedTypeMsg (data_type : Option String) : String :=
  "Unsupported data type: " ++ (match data_type with | none => "None" | some t => t) ++
    ". \n\tMust be one of: " ++ pyTupleRepr INPUTS

/-- Model of `DataSchema.__init__` followed by `DataSchema.__validate`:
the constructor stores the fields and then asserts
`self.data_type in self.INPUTS`. Python membership of `None` in a tuple
of strings is `False`, so a `None` data type fails the assertion. -/
def DataSchema.make (data_type : Option String) (default_value : Option PyVal)
    (description : Option String) (client : MLClientInfo) :
    Except String DataSchema :=
  let s : DataSchema :=
    { default_value := default_value, data_type := data_type,
      description := description, client := client }
  match data_type with
  | some t => if INPUTS.contains t then Except.ok s
              else Except.error (unsupportedTypeMsg data_type)
  | none => Except.error (unsupportedTypeMsg data_type)

/-- The URI prefixes recognised by `has_uri_prefix` inside
`DataSchema.__value2uri`. -/
def uriPfxs : List String :=
  [ "azureml:", "https://", "http://", "wasbs://", "abfss://", "adl://"]

/-- Model of the nested `has_uri_prefix` helper of `DataSchema.__value2uri`. -/
def hasUriPfx (s : String) : Bool :=
  uriPfxs.any (fun p => strStartsWith s p)

/-- Model of `DataSchema.__value2uri`. `fs` models the filesystem lookup
made by the nested `is_local_path` helper; `is_local_path` applied to a
non-string raises inside `Path(...)`, which the helper catches and turns
into `False`, hence the catch-all `none` branch. The result is the value
the code passes on: a string or Python `None`. -/
def value2uri (fs : String → Bool) (client : MLClientInfo) :
    Option PyVal → Except String (Option String)
  | some (.str s) =>
    if hasUriPfx s then Except.ok (some s)
    else if strHasChar s ':' then
      match get_ds_uri client s with
      | Except.ok u => Except.ok (some u)
      | Except.error e => Except.error e
    else if fs s then Except.ok (some s)
    else Except.ok none
  | _ => Except.ok none

/-- Model of `DataSchema.__guess_dtype`. In the source the argument at
the call site is the result of `__value2uri` (a string or `None`), but
the function itself is written over any value; the claims exercise it
over booleans, strings, floats and integers. -/
def guess_dtype : Option PyVal → Option String
  | some (.bool _) => some "boolean"
  | some (.str s) =>
    if strStartsWith s "azureml:" then
      if strHasChar s '.' then some "uri_file" else some "uri_folder"
    else some "string"
  | some (.float _) => some "number"
  | some (.int _) => some "integer"
  | none => none

/-- The `azure.ai.ml.Input` object as built by `DataSchema.__to_aml`
(the fields the embedded code sets; extra kwargs are not modelled). -/
structure Input where
  path : Option String
  type : Option String
  mode : String
  description : Option String
deriving DecidableEq, Repr

/-- The `azure.ai.ml.Output` object as built by `DataSchema.__to_aml`. -/
structure Output where
  path : Option String
  type : Option String
  mode : String
  description : Option String
deriving DecidableEq, Repr

/-- Direction tag for `DataSchema.__to_aml` (its `as_` argument; the
`assert as_ in ["input", "output"]` is vacuous under this type). -/
inductive IODir where
  | input
  | output
deriving DecidableEq, Repr

/-- Result object of `DataSchema.__to_aml`. -/
inductive AmlObj where
  | input (x : Input)
  | output (x : Output)
deriving DecidableEq, Repr

/-- Model of `DataSchema.__to_aml`. Mirrors the source line by line:
the no-value check, `value = value or self.default_value` (Python `or`,
so a falsy passed value falls back to the default), `__value2uri`,
type inference when `self.data_type` is falsy, mode defaulting from the
first element of the direction allowed set, then object construction.
The source also caches the guessed type back onto `self.data_type`;
that mutation is observable only across separate calls and is not
needed here, so the model stays per-call functional. -/
def DataSchema.to_aml (fs : String → Bool) (self : DataSchema) (as_ : IODir)
    (value : Option PyVal) (mode : Option String) : Except String AmlObj :=
  if value = none ∧ self.default_value = none then
    Except.error "Data has no value"
  else
    let v1 : Option PyVal :=
      match value with
      | some v => if pyTruthy v then some v else self.default_value
      | none => self.default_value
    match value2uri fs self.client v1 with
    | Except.error e => Except.error e
    | Except.ok uri =>
      let dtype : Option String :=
        match self.data_type with
        | some t => if t = "" then guess_dtype (uri.map PyVal.str) else some t
        | none => guess_dtype (uri.map PyVal.str)
      let m : String :=
        match mode with
        | some s =>
          if s = "" then
            (match as_ with
             | .input => IO_MODES_INPUT.headD ""
             | .output => IO_MODES_OUTPUT.headD "")
          else s
        | none =>
          match as_ with
          | .input => IO_MODES_INPUT.headD ""
          | .output => IO_MODES_OUTPUT.headD ""
      match as_ with
      | .input =>
        Except.ok (AmlObj.input
          { path := uri, type := dtype, mode := m, description := self.description })
      | .output =>
        Except.ok (AmlObj.output
          { path := uri, type := dtype, mode := m, description := self.description })

/-- Message of the no-value `ValueError` raised by `as_input` / `as_output`. -/
def noValueMsg : String := "Data has no a default value nor a passed value"

/-- Formatted text of the unsupported-mode `ValueError`. -/
def unsupportedModeMsg (mode : String) (allowed : List String) : String :=
  "Unsupported mode: " ++ mode ++ ". \n\tMust be one of: " ++ pyListRepr allowed

/-- Model of `DataSchema.as_input`: no-value check first, then the mode
membership check against `IO_MODES["INPUT"]`, then `__to_aml`. -/
def DataSchema.as_input (fs : String → Bool) (self : DataSchema)
    (value : Option PyVal) (mode : String) : Except String AmlObj :=
  if self.default_value = none ∧ value = none then
    Except.error noValueMsg
  else if !(IO_MODES_INPUT.contains mode) then
    Except.error (unsupportedModeMsg mode IO_MODES_INPUT)
  else
    self.to_aml fs IODir.input value (some mode)

/-- Model of `DataSchema.as_output`: same shape with the `OUTPUT` mode set. -/
def DataSchema.as_output (fs : String → Bool) (self : DataSchema)
    (value : Option PyVal) (mode : String) : Except String AmlObj :=
  if self.default_value = none ∧ value = none then
    Except.error noValueMsg
  else if !(IO_MODES_OUTPUT.contains mode) then
    Except.error (unsupportedModeMsg mode IO_MODES_OUTPUT)
  else
    self.to_aml fs IODir.output value (some mode)

/-- A conda dependency entry: a plain pip/conda specifier string, or the
nested `PipDependencies` group (pydantic model with a `pip` list). -/
inductive Dep where
  | str (s : String)
  | pip (pkgs : List String)
deriving DecidableEq, Repr

/-- The Python type tag of a dependency entry, as reported in the
`type_mismatch_i` diff value. -/
inductive DepKind where
  | strType
  | pipType
deriving DecidableEq, Repr

/-- Python `type(...)` of a dependency entry. -/
def Dep.kind : Dep → DepKind
  | .str _ => .strType
  | .pip _ => .pipType

/-- A value stored in a diff dictionary produced by
`EnvironmentSchema.compare`. Python sets are modelled as `Finset String`. -/
inductive DVal where
  | strPair (a b : String)
  | natPair (a b : Nat)
  | set (s : Finset String)
  | missingSelf (other_channels : List String)
  | missingOther (self_channels : List String)
  | typePair (a b : DepKind)
  | dict (entries : List (String × DVal))

/-- The parsed conda manifest: the pydantic `EnvironmentSchema` model. -/
structure EnvironmentSchema where
  name : String
  channels : Option (List String)
  dependencies : List Dep
deriving DecidableEq, Repr

/-- Model of `EnvironmentSchema._compare_channels`: both absent gives an
empty dict, one absent gives a tuple with a "missing" marker, both
present gives the symmetric difference of the two channel sets. -/
def EnvironmentSchema.compare_channels (self other : EnvironmentSchema) : DVal :=
  match self.channels, other.channels with
  | none, none => .dict []
  | none, some c => .missingSelf c
  | some c, none => .missingOther c
  | some c1, some c2 => .set (symmDiff c1.toFinset c2.toFinset)

/-- One iteration of the `enumerate(zip(...))` loop body in
`EnvironmentSchema._compare_dependencies`, at index `i`. -/
def compareDepPair (i : Nat) : Dep → Dep → List (String × DVal)
  | .str s, .str t =>
    if s ≠ t then [("item_" ++ toString i, .strPair s t)] else []
  | .pip p, .pip q =>
    if p ≠ q then [("pip_" ++ toString i, .set (symmDiff p.toFinset q.toFinset))]
    else []
  | x, y => [("type_mismatch_" ++ toString i, .typePair x.kind y.kind)]

/-- The `enumerate(zip(self.dependencies, other.dependencies))` loop of
`_compare_dependencies`, carrying the running index; like `zip` it stops
at the shorter list. -/
def compareDepLoop (i : Nat) : List Dep → List Dep → List (String × DVal)
  | x :: xs, y :: ys => compareDepPair i x y ++ compareDepLoop (i + 1) xs ys
  | _, _ => []

/-- Model of `EnvironmentSchema._compare_dependencies`: a length
mismatch entry first, then the per-position entries. -/
def EnvironmentSchema.compare_dependencies (self other : EnvironmentSchema) :
    List (String × DVal) :=
  (if self.dependencies.length ≠ other.dependencies.length then
    [("length", DVal.natPair self.dependencies.length other.dependencies.length)]
   else []) ++ compareDepLoop 0 self.dependencies other.dependencies

/-- Model of `EnvironmentSchema.compare`: a diff dictionary (association
list in insertion order) over name, channels and dependencies. -/
def EnvironmentSchema.compare (self other : EnvironmentSchema) :
    List (String × DVal) :=
  (if self.name ≠ other.name then [("name", DVal.strPair self.name other.name)]
   else []) ++
  (if self.channels ≠ other.channels then
    [("channels", self.compare_channels other)]
   else []) ++
  (let dd := self.compare_dependencies other
   if dd.isEmpty then [] else [("dependencies", DVal.dict dd)])

/-- Model of `EnvironmentSchema.is_equal`: the diff is empty. -/
def EnvironmentSchema.is_equal (self other : EnvironmentSchema) : Bool :=
  (self.compare other).length = 0

/-- Longest leading run of ASCII decimal digits of a character list,
with the remainder. -/
def takeDigits : List Char → List Char × List Char
  | [] => ([], [])
  | c :: cs =>
    if c.isDigit then
      match takeDigits cs with
      | (d, r) => (c :: d, r)
    else ([], c :: cs)

/-- Model of `re.match(r"(\d+)\.(\d+)\.(\d+)", s)` viewed as a boolean:
`re.match` anchors at the start only, so this holds exactly when `s`
begins with digits, a dot, digits, a dot, digits. -/
def matchesMmp (s : String) : Bool :=
  match takeDigits s.data with
  | ([], _) => false
  | (_ :: _, '.' :: r2) =>
    (match takeDigits r2 with
     | ([], _) => false
     | (_ :: _, '.' :: r4) => !(takeDigits r4).1.isEmpty
     | (_ :: _, _) => false)
  | (_ :: _, _) => false

/-- Model of Python `str.isdigit` on the ASCII strings at play: nonempty
and all decimal digits. -/
def pyIsDigitStr (s : String) : Bool :=
  !s.isEmpty && s.data.all Char.isDigit

/-- Numeric value of a nonempty all-digit character list. -/
def digitsVal (cs : List Char) : Nat :=
  cs.foldl (fun acc c => acc * 10 + (c.toNat - 48)) 0

/-- Model of Python `int(s)` on a string: strip whitespace, optional
sign, then a nonempty digit run; anything else raises `ValueError`. -/
def pyInt (s : String) : Except String Int :=
  let core : List Char → Except String Int := fun ds =>
    if ds.isEmpty then Except.error ("ValueError: invalid literal for int: " ++ s)
    else if ds.all Char.isDigit then Except.ok (Int.ofNat (digitsVal ds))
    else Except.error ("ValueError: invalid literal for int: " ++ s)
  match pyStrip s.data with
  | '+' :: ds => core ds
  | '-' :: ds => (core ds).map (fun n => -n)
  | ds => core ds

/-- Add `d` to the last element of a list of integers
(`parts[-1] += 1` / `parts[-1] -= 1`). -/
def bumpLast (d : Int) : List Int → List Int
  | [] => []
  | [x] => [x + d]
  | x :: y :: xs => x :: bumpLast d (y :: xs)

/-- Model of `increment_version`. `now` stands for
`datetime.now().timestamp()` truncated to whole seconds, so the fallback
version is `toString now`. A version that passes the regex gate but has a
split component `int()` cannot parse (Python would raise `ValueError`)
yields an error. -/
def increment_version (version_string : String) (increment : Bool) (now : Nat) :
    Except String String :=
  if !(matchesMmp version_string || pyIsDigitStr version_string) then
    Except.ok (toString now)
  else if pyIsDigitStr version_string then
    match pyInt version_string with
    | Except.error e => Except.error e
    | Except.ok n =>
      Except.ok (if increment then toString (n + 1) else toString (n - 1))
  else
    match ((splitCh '.' version_string.data).map String.mk).mapM pyInt with
    | Except.error e => Except.error e
    | Except.ok parts =>
      Except.ok (String.intercalate "." ((bumpLast (if increment then 1 else -1) parts).map toString))

/-- The `conda_file` attribute of an `azure.ai.ml.entities.Environment`:
either a filesystem path string (as set by the create branch) or the
conda mapping itself (as carried by registered remote environments and
set by the update branch). A mapping that parses into the pydantic
schema is identified with that schema; `get_create_or_update` rejects
anything else anyway. -/
inductive CondaFile where
  | path (p : String)
  | dict (d : EnvironmentSchema)
deriving DecidableEq, Repr

/-- The fields of `azure.ai.ml.entities.Environment` that
`Env.get_create_or_update` reads or writes. `tags` and `properties`
are opaque payloads carried through unchanged. -/
structure AmlEnvironment where
  name : String
  version : Option String
  description : Option String
  tags : Option (List String)
  properties : Option (List (String × String))
  build : Option String
  image : Option String
  conda_file : CondaFile
deriving DecidableEq, Repr

/-- `settings.ENV_DEFAULT_IMAGE`. -/
def ENV_DEFAULT_IMAGE : String :=
  "mcr.microsoft.com/azureml/openmpi4.1.0-ubuntu20.04:latest"

/-- `settings.ENV_DEFAULT_DESCRIPTION.format(env_name=env_name)`. -/
def ENV_DEFAULT_DESCRIPTION (env_name : String) : String :=
  "Environment created by DSML SDK v2: " ++ env_name

/-- Python `x or dflt` for an optional string `x` (`None` and the empty
string are falsy). -/
def pyOrStr (x : Option String) (dflt : String) : String :=
  match x with
  | some s => if s = "" then dflt else s
  | none => dflt

/-- Python `create_tags or settings.ENV_DEFAULT_TAGS` where the default
is `None` (`None` and the empty list are falsy). -/
def pyOrTags (x : Option (List String)) : Option (List String) :=
  match x with
  | some l => if l = [] then none else some l
  | none => none

/-- Model of `Env.get_create_or_update`, non-I/O core. Inputs stand for
the effects the method performs up front: `latest` is the result of
`Env.get_latest(self.env_name)`, `localConda` the conda file already
loaded by `yaml.safe_load` and validated into the pydantic schema (a
schema-invalid file raises before the comparison and is outside the
claims settled here), `userInput` the line `input()` would return in the
interactive branch, and `now` the timestamp for `increment_version`.
The second component of the result collects the environments pushed via
`ml_client.environments.create_or_update`, in order. `create_version`
is accepted and ignored exactly as in the source. -/
def get_create_or_update (env_name : String) (conda_file_path : String)
    (localConda : EnvironmentSchema) (latest : Option AmlEnvironment)
    (create_version create_image create_description : Option String)
    (create_tags : Option (List String)) (interactive : Bool)
    (userInput : String) (now : Nat) :
    Except String (AmlEnvironment × List AmlEnvironment) :=
  match latest with
  | none =>
    let new_env : AmlEnvironment :=
      { name := env_name, version := none,
        description := some (pyOrStr create_description (ENV_DEFAULT_DESCRIPTION env_name)),
        tags := pyOrTags create_tags,
        properties := none, build := none,
        image := some (pyOrStr create_image ENV_DEFAULT_IMAGE),
        conda_file := CondaFile.path conda_file_path }
    let _ := create_version
    Except.ok (new_env, [new_env])
  | some latest =>
    match latest.conda_file with
    | CondaFile.path _ =>
      Except.error "TypeError: remote conda_file is not a mapping"
    | CondaFile.dict remoteSchema =>
      if remoteSchema.is_equal localConda = false then
        match latest.version with
        | none => Except.error "TypeError: expected string or bytes-like object"
        | some v =>
          match increment_version v true now with
          | Except.error e => Except.error e
          | Except.ok incremented =>
            let new_version : String :=
              if interactive then
                (if (pyStrip userInput.data).isEmpty then incremented else userInput)
              else incremented
            let updated_env : AmlEnvironment :=
              { name := env_name, version := some new_version,
                description := latest.description, tags := latest.tags,
                properties := latest.properties,
                conda_file := CondaFile.dict localConda,
                build := latest.build, image := latest.image }
            Except.ok (updated_env, [updated_env])
      else
        Except.ok (latest, [])

/-- Whether `needle` occurs as a contiguous run inside `hay`. -/
def listHasRun (needle : List Char) : List Char → Bool
  | [] => needle.isEmpty
  | h :: t => listStartsWith (h :: t) needle || listHasRun needle t

/-- Substring test on strings: formalises a message "naming" a piece of
text. -/
def strContains (hay needle : String) : Bool :=
  listHasRun needle.data hay.data

/-- A filesystem on which no path exists (used by concrete instances:
the values exercised there are URIs and literals, not local paths). -/
def noFs : String → Bool := fun _ => false

/-- A concrete client for concrete instances. -/
def sampleClient : MLClientInfo :=
  { subscription_id := "sub-id", resource_group_name := "rg", workspace_name := "ws" }

/-- A concrete `os.environ` agreeing with `sampleClient`. -/
def sampleEnvv : String → Option String := fun k =>
  if k = "SUBSCRIPTION_ID" then some "sub-id"
  else if k = "RESOURCE_GROUP" then some "rg"
  else if k = "WORKSPACE_NAME" then some "ws"
  else none

/-- A concrete schema with a declared type and a default URI value. -/
def schemaWithDefault : DataSchema :=
  { default_value := some (PyVal.str "azureml:foo/bar.csv"),
    data_type := some "uri_file", description := none, client := sampleClient }

/-- A concrete conda manifest. -/
def manifestA : EnvironmentSchema :=
  { name := "train-env",
    channels := some [ "conda-forge", "defaults"],
    dependencies :=
      [ Dep.str "python=3.10", Dep.str "pip",
        Dep.pip [ "pandas==2.0", "scikit-learn"]] }

/-- `manifestA` with the plain dependency at position 1 changed. -/
def manifestB : EnvironmentSchema :=
  { manifestA with dependencies := manifestA.dependencies.set 1 (Dep.str "pip=23.1") }

/-- `manifestA` with the same channels in the opposite order. -/
def manifestC : EnvironmentSchema :=
  { manifestA with channels := some [ "defaults", "conda-forge"] }

/-- A concrete registered remote environment whose manifest is `manifestA`. -/
def remoteEnvA : AmlEnvironment :=
  { name := "train-env", version := some "1.2.3",
    description := some "remote description",
    tags := some [ "team-ds"],
    properties := some [("azureml.labels", "latest")],
    build := some "docker-context",
    image := some ENV_DEFAULT_IMAGE,
    conda_file := CondaFile.dict manifestA }

/-- `Nat.digitChar` of a value below ten is a decimal digit character. -/
theorem digitChar_isDigit (k : Nat) (h : k < 10) :
    (Nat.digitChar k).isDigit = true := by
  interval_cases k <;> decide

/-- `Nat.toDigitsCore` in base ten only prepends decimal digit characters. -/
theorem toDigitsCore_all_digits (fuel : Nat) :
    ∀ (n : Nat) (acc : List Char), acc.all Char.isDigit = true →
      (Nat.toDigitsCore 10 fuel n acc).all Char.isDigit = true := by
  induction fuel with
  | zero => intro n acc hacc; simpa [Nat.toDigitsCore] using hacc
  | succ f ih =>
    intro n acc hacc
    simp only [Nat.toDigitsCore]
    have hd : (Nat.digitChar (n % 10)).isDigit = true :=
      digitChar_isDigit _ (Nat.mod_lt _ (by norm_num))
    split
    · simp [hd, hacc]
    · exact ih _ _ (by simp [hd, hacc])

/-- The decimal representation of a natural number is all digits. -/
theorem natRepr_all_digits (n : Nat) :
    (Nat.repr n).data.all Char.isDigit = true := by
  have h := toDigitsCore_all_digits (n + 1) n [] (by simp)
  simpa [Nat.repr, Nat.toDigits, List.asString] using h

/-- A dependency entry compared with itself contributes no diff entry. -/
theorem compareDepPair_refl (i : Nat) (x : Dep) : compareDepPair i x x = [] := by
  cases x <;> simp [compareDepPair]

/-- The dependency loop over a list zipped with itself is empty. -/
theorem compareDepLoop_refl (i : Nat) (d : List Dep) :
    compareDepLoop i d d = [] := by
  induction d generalizing i with
  | nil => simp [compareDepLoop]
  | cons x xs ih => simp [compareDepLoop, compareDepPair_refl, ih]

/-- The dependency loop over a list and the same list with position `j`
replaced by a differing plain specifier produces exactly the one
`item_` entry for that position. -/
theorem compareDepLoop_set (d : List Dep) :
    ∀ (i j : Nat) (a b : String), d.get? j = some (Dep.str a) → a ≠ b →
      compareDepLoop i d (d.set j (Dep.str b))
        = [("item_" ++ toString (i + j), DVal.strPair a b)] := by
  induction d with
  | nil => intro i j a b hget; simp [List.get?] at hget
  | cons x xs ih =>
    intro i j a b hget hne
    cases j with
    | zero =>
      simp only [List.get?] at hget
      injection hget with hx
      subst hx
      simp [List.set, compareDepLoop, compareDepPair, hne, compareDepLoop_refl]
    | succ k =>
      simp only [List.get?] at hget
      have hrec := ih (i + 1) k a b hget hne
      have harith : i + (k + 1) = i + 1 + k := by omega
      simp [List.set, compareDepLoop, compareDepPair_refl, hrec, harith]

/-- Every character list is a leading run of itself. -/
theorem listStartsWith_refl (l : List Char) : listStartsWith l l = true := by
  induction l with
  | nil => rfl
  | cons h t ih => simp [listStartsWith, ih]

/-- A character list occurs inside anything that ends with it. -/
theorem listHasRun_append (pre needle : List Char) :
    listHasRun needle (pre ++ needle) = true := by
  induction pre with
  | nil =>
    cases needle with
    | nil => rfl
    | cons h t => simp [listHasRun, listStartsWith_refl]
  | cons p ps ih => simp [listHasRun, ih]

/-- A string contains any suffix of itself. -/
theorem strContains_append (a b : String) : strContains (a ++ b) b = true := by
  simpa [strContains, String.data_append] using listHasRun_append a.data b.data

/-- `splitCh` never returns the empty list of segments. -/
theorem splitCh_ne_nil (c : Char) (l : List Char) : splitCh c l ≠ [] := by
  cases l with
  | nil => simp [splitCh]
  | cons x xs =>
    simp only [splitCh]
    split
    · simp
    · split
      · simp
      · simp

/-- Splitting a list whose head segment `a` is separator-free peels `a`
off as the first segment. -/
theorem splitCh_append (c : Char) (a b : List Char) (ha : c ∉ a) :
    splitCh c (a ++ c :: b) = a :: splitCh c b := by
  induction a with
  | nil => simp [splitCh]
  | cons x xs ih =>
    have hxc : ¬x = c := by
      intro h; exact ha (by simp [h])
    have ih2 := ih (fun h => ha (List.mem_cons_of_mem _ h))
    simp only [List.cons_append, splitCh, hxc, if_false]
    rw [show List.append xs (c :: b) = xs ++ c :: b from rfl, ih2]

/-- `fixSlash` on a string whose part before the first colon is `a`
normalises exactly one slash right after that colon. -/
theorem fixSlash_append (a b : List Char) (ha : ':' ∉ a) :
    fixSlash (a ++ ':' :: b) = some (a ++ ':' :: dropLeadSlash b) := by
  induction a with
  | nil => simp [fixSlash]
  | cons x xs ih =>
    have hxc : ¬x = ':' := by
      intro h; exact ha (by simp [h])
    have ih2 := ih (fun h => ha (List.mem_cons_of_mem _ h))
    simp [fixSlash, hxc, ih2]

/-- Dropping one leading slash before splitting drops it from the first
segment of the split. -/
theorem splitCh_dropLeadSlash (b : List Char) :
    splitCh ':' (dropLeadSlash b)
      = dropLeadSlash ((splitCh ':' b).headD []) :: (splitCh ':' b).tail := by
  cases b with
  | nil => simp [splitCh, dropLeadSlash]
  | cons x xs =>
    by_cases hx : x = '/'
    · subst hx
      have hne : ¬('/' : Char) = ':' := by decide
      simp only [dropLeadSlash, if_pos rfl, splitCh, hne, if_false]
      cases h : splitCh ':' xs with
      | nil => exact absurd h (splitCh_ne_nil ':' xs)
      | cons y ys => simp [h, dropLeadSlash]
    · by_cases hc : x = ':'
      · subst hc
        have h1 : dropLeadSlash (':' :: xs) = ':' :: xs := by
          simp [dropLeadSlash]
        simp [h1, splitCh, dropLeadSlash]
      · have h1 : dropLeadSlash (x :: xs) = x :: xs := by
          simp [dropLeadSlash, hx]
        rw [h1]
        simp only [splitCh, hc, if_false]
        cases h : splitCh ':' xs with
        | nil => exact absurd h (splitCh_ne_nil ':' xs)
        | cons y ys => simp [h, dropLeadSlash, hx]

/-- C1: constructing a `DataSchema` with `data_type = None` does NOT
succeed: `__validate` asserts membership of `data_type` in `INPUTS` and
`None` is not a member, so construction raises. The inference map the
claim describes (`__guess_dtype`) does behave as stated: `True` gives
boolean, an `azureml:` string with a dot gives `uri_file`, without a dot
`uri_folder`, a float gives number, an integer gives integer. -/
theorem c1_none_datatype_construction_fails :
    DataSchema.make none (some (PyVal.bool true)) none sampleClient
      = Except.error (unsupportedTypeMsg none)
    ∧ guess_dtype (some (PyVal.bool true)) = some "boolean"
    ∧ guess_dtype (some (PyVal.str "azureml:foo/bar.csv")) = some "uri_file"
    ∧ guess_dtype (some (PyVal.str "azureml:foo/bar")) = some "uri_folder"
    ∧ guess_dtype (some (PyVal.float false)) = some "number"
    ∧ guess_dtype (some (PyVal.int 7)) = some "integer" := by
  refine ⟨rfl, rfl, ?_, ?_, rfl, rfl⟩ <;> decide

/-- C2: two manifests with identical name, channels and dependency
sequences compare to an empty diff and are `is_equal`; changing exactly
the plain dependency entry at position `i` to a different specifier
produces a diff whose sole content is the dependencies dictionary with
the single key `item_i` holding the two differing entries. -/
theorem c2_compare_identity_and_single_change (m : EnvironmentSchema) (i : Nat)
    (a b : String) (hget : m.dependencies.get? i = some (Dep.str a)) (hne : a ≠ b) :
    EnvironmentSchema.compare m m = []
    ∧ EnvironmentSchema.is_equal m m = true
    ∧ EnvironmentSchema.compare m
        { m with dependencies := m.dependencies.set i (Dep.str b) }
      = [("dependencies",
          DVal.dict [("item_" ++ toString i, DVal.strPair a b)])] := by
  have hself : EnvironmentSchema.compare m m = [] := by
    simp [EnvironmentSchema.compare, EnvironmentSchema.compare_dependencies,
      compareDepLoop_refl]
  refine ⟨hself, ?_, ?_⟩
  · simp [EnvironmentSchema.is_equal, hself]
  · have hloop := compareDepLoop_set m.dependencies 0 i a b hget hne
    simp only [Nat.zero_add] at hloop
    simp [EnvironmentSchema.compare, EnvironmentSchema.compare_dependencies,
      List.length_set, hloop]

/-- Witness for C2 at a concrete manifest, changing position 1. -/
theorem c2_witness :
    (manifestA.dependencies.get? 1 = some (Dep.str "pip") ∧ "pip" ≠ "pip=23.1")
    ∧ (EnvironmentSchema.compare manifestA manifestA = []
       ∧ EnvironmentSchema.is_equal manifestA manifestA = true
       ∧ EnvironmentSchema.compare manifestA
           { manifestA with
              dependencies := manifestA.dependencies.set 1 (Dep.str "pip=23.1") }
         = [("dependencies",
             DVal.dict [("item_" ++ toString 1, DVal.strPair "pip" "pip=23.1")])]) :=
  ⟨⟨rfl, by decide⟩,
   c2_compare_identity_and_single_change manifestA 1 "pip" "pip=23.1" rfl (by decide)⟩

/-- C3: when the latest remote environment exists and its manifest is
equal to the local one, `get_create_or_update` returns that remote
environment object unchanged and pushes nothing to the client. -/
theorem c3_unchanged_returns_remote_no_push (env_name conda_path : String)
    (localConda remoteSchema : EnvironmentSchema) (latest : AmlEnvironment)
    (cv ci cd : Option String) (ct : Option (List String)) (inter : Bool)
    (ui : String) (now : Nat)
    (hconda : latest.conda_file = CondaFile.dict remoteSchema)
    (heq : EnvironmentSchema.is_equal remoteSchema localConda = true) :
    get_create_or_update env_name conda_path localConda (some latest)
        cv ci cd ct inter ui now
      = Except.ok (latest, []) := by
  simp [get_create_or_update, hconda, heq]

/-- Witness for C3: the local manifest equals the remote one. -/
theorem c3_witness :
    (remoteEnvA.conda_file = CondaFile.dict manifestA
     ∧ EnvironmentSchema.is_equal manifestA manifestA = true)
    ∧ get_create_or_update "train-env" "./conda_dependencies.yaml" manifestA
        (some remoteEnvA) none none none none false "" 1760000000
      = Except.ok (remoteEnvA, []) :=
  ⟨⟨rfl, by decide⟩,
   c3_unchanged_returns_remote_no_push "train-env" "./conda_dependencies.yaml"
     manifestA manifestA remoteEnvA none none none none false "" 1760000000
     rfl (by decide)⟩

/-- C4: when the manifests differ, the non-interactive path pushes and
returns exactly one updated environment: description, tags, properties,
build context and image are those of the latest remote environment, the
conda manifest is replaced by the local one, and the version is
`increment_version` of the latest remote version. -/
theorem c4_changed_pushes_updated_env (env_name conda_path : String)
    (localConda remoteSchema : EnvironmentSchema) (latest : AmlEnvironment)
    (v w : String) (cv ci cd : Option String) (ct : Option (List String))
    (ui : String) (now : Nat)
    (hconda : latest.conda_file = CondaFile.dict remoteSchema)
    (hne : EnvironmentSchema.is_equal remoteSchema localConda = false)
    (hv : latest.version = some v)
    (hinc : increment_version v true now = Except.ok w) :
    get_create_or_update env_name conda_path localConda (some latest)
        cv ci cd ct false ui now
      = Except.ok
          ({ name := env_name, version := some w,
             description := latest.description, tags := latest.tags,
             properties := latest.properties,
             conda_file := CondaFile.dict localConda,
             build := latest.build, image := latest.image },
           [{ name := env_name, version := some w,
              description := latest.description, tags := latest.tags,
              properties := latest.properties,
              conda_file := CondaFile.dict localConda,
              build := latest.build, image := latest.image }]) := by
  simp [get_create_or_update, hconda, hne, hv, hinc]

/-- Witness for C4 at a concrete differing manifest and version 1.2.3. -/
theorem c4_witness :
    (remoteEnvA.conda_file = CondaFile.dict manifestA
     ∧ EnvironmentSchema.is_equal manifestA manifestB = false
     ∧ remoteEnvA.version = some "1.2.3"
     ∧ increment_version "1.2.3" true 1760000000 = Except.ok "1.2.4")
    ∧ get_create_or_update "train-env" "./conda_dependencies.yaml" manifestB
        (some remoteEnvA) none none none none false "" 1760000000
      = Except.ok
          ({ name := "train-env", version := some "1.2.4",
             description := remoteEnvA.description, tags := remoteEnvA.tags,
             properties := remoteEnvA.properties,
             conda_file := CondaFile.dict manifestB,
             build := remoteEnvA.build, image := remoteEnvA.image },
           [{ name := "train-env", version := some "1.2.4",
              description := remoteEnvA.description, tags := remoteEnvA.tags,
              properties := remoteEnvA.properties,
              conda_file := CondaFile.dict manifestB,
              build := remoteEnvA.build, image := remoteEnvA.image }]) :=
  ⟨⟨rfl, by decide, rfl, by decide⟩,
   c4_changed_pushes_updated_env "train-env" "./conda_dependencies.yaml"
     manifestB manifestA remoteEnvA "1.2.3" "1.2.4" none none none none ""
     1760000000 rfl (by decide) rfl (by decide)⟩

/-- C5: `increment_version` bumps the patch component up or down, bumps
a plain integer, and for any string that neither starts with the
numeric major.minor.patch pattern nor is all digits it falls back to
the timestamp-derived string, which consists of decimal digits. -/
theorem c5_increment_version (s : String) (b : Bool) (now : Nat)
    (h1 : matchesMmp s = false) (h2 : pyIsDigitStr s = false) :
    increment_version "1.2.3" true now = Except.ok "1.2.4"
    ∧ increment_version "1.2.3" false now = Except.ok "1.2.2"
    ∧ increment_version "7" true now = Except.ok "8"
    ∧ increment_version s b now = Except.ok (toString now)
    ∧ (toString now).data.all Char.isDigit = true := by
  refine ⟨rfl, rfl, rfl, ?_, natRepr_all_digits now⟩
  simp [increment_version, h1, h2]

/-- Witness for C5 at the string "abc" and a concrete timestamp. -/
theorem c5_witness :
    (matchesMmp "abc" = false ∧ pyIsDigitStr "abc" = false)
    ∧ (increment_version "1.2.3" true 1760000000 = Except.ok "1.2.4"
       ∧ increment_version "1.2.3" false 1760000000 = Except.ok "1.2.2"
       ∧ increment_version "7" true 1760000000 = Except.ok "8"
       ∧ increment_version "abc" true 1760000000 = Except.ok (toString 1760000000)
       ∧ (toString 1760000000).data.all Char.isDigit = true) :=
  ⟨⟨by decide, by decide⟩,
   c5_increment_version "abc" true 1760000000 (by decide) (by decide)⟩

/-- C6 fails as stated: with an unsupported mode but no value anywhere,
`as_input` raises the no-value `ValueError`, whose message does not name
the allowed mode set, because the value check precedes the mode check. -/
theorem c6_counterexample :
    DataSchema.as_input noFs { schemaWithDefault with default_value := none }
        none "bogus"
      = Except.error noValueMsg
    ∧ IO_MODES_INPUT.contains "bogus" = false
    ∧ strContains noValueMsg (pyListRepr IO_MODES_INPUT) = false
    ∧ noValueMsg ≠ unsupportedModeMsg "bogus" IO_MODES_INPUT := by
  refine ⟨by decide, by decide, by decide, by decide⟩

/-- C6 amended: `as_input` succeeds only for modes in `IO_MODES["INPUT"]`
and `as_output` only for modes in `IO_MODES["OUTPUT"]`; when a value is
available (a default or a passed one), any other mode raises the
unsupported-mode `ValueError`, whose message names the allowed set for
the direction; with no value at all, the no-value error is raised first. -/
theorem c6_amended (fs : String → Bool) (sch : DataSchema) (v : Option PyVal)
    (mode : String) :
    (∀ r, DataSchema.as_input fs sch v mode = Except.ok r →
        IO_MODES_INPUT.contains mode = true)
    ∧ (IO_MODES_INPUT.contains mode = false →
        (sch.default_value ≠ none ∨ v ≠ none) →
        DataSchema.as_input fs sch v mode
          = Except.error (unsupportedModeMsg mode IO_MODES_INPUT))
    ∧ (∀ r, DataSchema.as_output fs sch v mode = Except.ok r →
        IO_MODES_OUTPUT.contains mode = true)
    ∧ (IO_MODES_OUTPUT.contains mode = false →
        (sch.default_value ≠ none ∨ v ≠ none) →
        DataSchema.as_output fs sch v mode
          = Except.error (unsupportedModeMsg mode IO_MODES_OUTPUT))
    ∧ strContains (unsupportedModeMsg mode IO_MODES_INPUT)
        (pyListRepr IO_MODES_INPUT) = true
    ∧ strContains (unsupportedModeMsg mode IO_MODES_OUTPUT)
        (pyListRepr IO_MODES_OUTPUT) = true := by
  refine ⟨?_, ?_, ?_, ?_, ?_, ?_⟩
  · intro r h
    by_cases hmem : IO_MODES_INPUT.contains mode = true
    · exact hmem
    · exfalso
      have hm : IO_MODES_INPUT.contains mode = false := by
        simpa using hmem
      simp only [DataSchema.as_input, hm] at h
      split at h
      · exact Except.noConfusion h
      · simp at h
  · intro hm hval
    have hc : ¬(sch.default_value = none ∧ v = none) := by
      rcases hval with h | h
      · exact fun hc => h hc.1
      · exact fun hc => h hc.2
    simp only [DataSchema.as_input, hm, hc]
    simp [hc]
  · intro r h
    by_cases hmem : IO_MODES_OUTPUT.contains mode = true
    · exact hmem
    · exfalso
      have hm : IO_MODES_OUTPUT.contains mode = false := by
        simpa using hmem
      simp only [DataSchema.as_output, hm] at h
      split at h
      · exact Except.noConfusion h
      · simp at h
  · intro hm hval
    have hc : ¬(sch.default_value = none ∧ v = none) := by
      rcases hval with h | h
      · exact fun hc => h hc.1
      · exact fun hc => h hc.2
    simp only [DataSchema.as_output, hm, hc]
    simp [hc]
  · unfold unsupportedModeMsg
    exact strContains_append _ _
  · unfold unsupportedModeMsg
    exact strContains_append _ _

/-- Witness for C6 amended: an unsupported mode with a default value
present produces exactly the unsupported-mode message. -/
theorem c6_witness :
    (IO_MODES_INPUT.contains "fancy" = false
     ∧ schemaWithDefault.default_value ≠ none)
    ∧ DataSchema.as_input noFs schemaWithDefault none "fancy"
        = Except.error (unsupportedModeMsg "fancy" IO_MODES_INPUT) :=
  ⟨⟨by decide, by decide⟩,
   (c6_amended noFs schemaWithDefault none "fancy").2.1 (by decide)
     (Or.inl (by decide))⟩

/-- C7 fails as stated: a string with the `https://` prefix and a dot is
classified `string`, not `uri_file`; only the `azureml:` prefix triggers
the dot rule in `__guess_dtype`. -/
theorem c7_counterexample :
    hasUriPfx "https://example.com/data.csv" = true
    ∧ strHasChar "https://example.com/data.csv" '.' = true
    ∧ guess_dtype (some (PyVal.str "https://example.com/data.csv")) = some "string"
    ∧ guess_dtype (some (PyVal.str "https://example.com/data.csv"))
        ≠ some "uri_file" := by
  refine ⟨by decide, by decide, by decide, by decide⟩

/-- C7 amended: the boolean check comes first; only strings with the
`azureml:` prefix classify by the dot rule as `uri_file` / `uri_folder`;
every other string (including ones with the remaining qualified-URI
prefixes) maps to `string`; floats map to `number`, integers to
`integer`. -/
theorem c7_amended (s : String) (b z : Bool) (n : Int) :
    guess_dtype (some (PyVal.bool b)) = some "boolean"
    ∧ (strStartsWith s "azureml:" = true → strHasChar s '.' = true →
        guess_dtype (some (PyVal.str s)) = some "uri_file")
    ∧ (strStartsWith s "azureml:" = true → strHasChar s '.' = false →
        guess_dtype (some (PyVal.str s)) = some "uri_folder")
    ∧ (strStartsWith s "azureml:" = false →
        guess_dtype (some (PyVal.str s)) = some "string")
    ∧ guess_dtype (some (PyVal.float z)) = some "number"
    ∧ guess_dtype (some (PyVal.int n)) = some "integer" := by
  refine ⟨rfl, ?_, ?_, ?_, rfl, rfl⟩
  · intro h1 h2
    simp [guess_dtype, h1, h2]
  · intro h1 h2
    simp [guess_dtype, h1, h2]
  · intro h1
    simp [guess_dtype, h1]

/-- Witness for C7 amended at an `azureml:` reference with a dot. -/
theorem c7_witness :
    (strStartsWith "azureml:a.b" "azureml:" = true
     ∧ strHasChar "azureml:a.b" '.' = true)
    ∧ guess_dtype (some (PyVal.str "azureml:a.b")) = some "uri_file" :=
  ⟨⟨by decide, by decide⟩,
   (c7_amended "azureml:a.b" true false 0).2.1 (by decide) (by decide)⟩

/-- C8 fails as stated: a passed falsy value (here `False`) does not
override the default; `value or self.default_value` falls back to the
default, so the two schemas below, differing only in their default,
build different Inputs for the same passed value. -/
theorem c8_counterexample :
    DataSchema.as_input noFs schemaWithDefault (some (PyVal.bool false)) "ro_mount"
      = Except.ok (AmlObj.input
          { path := some "azureml:foo/bar.csv", type := some "uri_file",
            mode := "ro_mount", description := none })
    ∧ DataSchema.as_input noFs { schemaWithDefault with default_value := none }
        (some (PyVal.bool false)) "ro_mount"
      = Except.ok (AmlObj.input
          { path := none, type := some "uri_file",
            mode := "ro_mount", description := none })
    ∧ DataSchema.as_input noFs schemaWithDefault (some (PyVal.bool false)) "ro_mount"
      ≠ DataSchema.as_input noFs { schemaWithDefault with default_value := none }
          (some (PyVal.bool false)) "ro_mount" := by
  refine ⟨by decide, by decide, by decide⟩

/-- C8 amended: a passed truthy value overrides the default (the result
does not depend on the default value at all); a passed `None` with no
default fails with the no-value error before anything is built (falsy
non-`None` values instead fall back to the default, see the
counterexample). -/
theorem c8_amended (fs : String → Bool) (sch : DataSchema) (v : PyVal)
    (mode : String) :
    (pyTruthy v = true →
      DataSchema.as_input fs sch (some v) mode
        = DataSchema.as_input fs { sch with default_value := none } (some v) mode)
    ∧ (pyTruthy v = true →
      DataSchema.as_output fs sch (some v) mode
        = DataSchema.as_output fs { sch with default_value := none } (some v) mode)
    ∧ (sch.default_value = none →
      DataSchema.as_input fs sch none mode = Except.error noValueMsg)
    ∧ (sch.default_value = none →
      DataSchema.as_output fs sch none mode = Except.error noValueMsg) := by
  refine ⟨?_, ?_, ?_, ?_⟩
  · intro h
    simp [DataSchema.as_input, DataSchema.to_aml, h]
  · intro h
    simp [DataSchema.as_output, DataSchema.to_aml, h]
  · intro h
    simp [DataSchema.as_input, h]
  · intro h
    simp [DataSchema.as_output, h]

/-- Witness for C8 amended: a truthy passed value makes the default
irrelevant. -/
theorem c8_witness :
    pyTruthy (PyVal.int 7) = true
    ∧ DataSchema.as_input noFs schemaWithDefault (some (PyVal.int 7)) "download"
      = DataSchema.as_input noFs { schemaWithDefault with default_value := none }
          (some (PyVal.int 7)) "download" :=
  ⟨by decide,
   (c8_amended noFs schemaWithDefault (PyVal.int 7) "download").1 (by decide)⟩

/-- C9 fails as stated: on a short reference with whitespace after the
colon the two resolvers disagree, because `get_aml_uri` strips both
segments while `__get_ds_uri` strips nothing (it only normalises a
slash directly after the colon). The ambient identifiers agree. -/
theorem c9_counterexample :
    sampleEnvv "SUBSCRIPTION_ID" = some sampleClient.subscription_id
    ∧ sampleEnvv "RESOURCE_GROUP" = some sampleClient.resource_group_name
    ∧ sampleEnvv "WORKSPACE_NAME" = some sampleClient.workspace_name
    ∧ strHasChar "ds: x" ':' = true
    ∧ get_aml_uri sampleEnvv "ds: x"
        = Except.ok (amlUri "sub-id" "rg" "ws" "ds" "x")
    ∧ get_ds_uri sampleClient "ds: x"
        = Except.ok (amlUri "sub-id" "rg" "ws" "ds" " x")
    ∧ get_aml_uri sampleEnvv "ds: x" ≠ get_ds_uri sampleClient "ds: x" := by
  refine ⟨by decide, by decide, by decide, by decide, by decide, by decide, by decide⟩

/-- C9 amended: the two resolvers agree on every reference whose store
segment and first path segment carry no surrounding whitespace (the
slash normalisation after the colon is equivalent on both sides:
each drops at most one leading slash), whenever the ambient identifiers
agree. -/
theorem c9_amended (client : MLClientInfo) (envv : String → Option String)
    (hs : envv "SUBSCRIPTION_ID" = some client.subscription_id)
    (hr : envv "RESOURCE_GROUP" = some client.resource_group_name)
    (hw : envv "WORKSPACE_NAME" = some client.workspace_name)
    (a b : List Char) (ha : ':' ∉ a)
    (hsa : pyStrip a = a)
    (hsb : pyStrip ((splitCh ':' b).headD []) = (splitCh ':' b).headD []) :
    get_aml_uri envv (String.mk (a ++ ':' :: b))
      = get_ds_uri client (String.mk (a ++ ':' :: b)) := by
  cases hb : splitCh ':' b with
  | nil => exact absurd hb (splitCh_ne_nil ':' b)
  | cons b0 bs =>
    have hsb0 : pyStrip b0 = b0 := by
      rw [hb] at hsb
      simpa using hsb
    have hsplit : splitCh ':' (a ++ ':' :: b) = a :: b0 :: bs := by
      rw [splitCh_append ':' a b ha, hb]
    have hfix : fixSlash (a ++ ':' :: b) = some (a ++ ':' :: dropLeadSlash b) :=
      fixSlash_append a b ha
    have hd : splitCh ':' (dropLeadSlash b) = dropLeadSlash b0 :: bs := by
      rw [splitCh_dropLeadSlash b, hb]
      simp
    have hsplit2 : splitCh ':' (a ++ ':' :: dropLeadSlash b)
        = a :: dropLeadSlash b0 :: bs := by
      rw [splitCh_append ':' a _ ha, hd]
    have hdata : (String.mk (a ++ ':' :: b)).data = a ++ ':' :: b := rfl
    simp only [get_aml_uri, get_ds_uri, hdata, hsplit, hfix, hsplit2, hs, hr, hw,
      hsa, hsb0]

/-- Witness for C9 amended on the whitespace-free reference "ds:x". -/
theorem c9_witness :
    ((':' ∉ [ 'd', 's']) ∧ pyStrip [ 'd', 's'] = [ 'd', 's']
     ∧ pyStrip ((splitCh ':' [ 'x']).headD []) = (splitCh ':' [ 'x']).headD [])
    ∧ get_aml_uri sampleEnvv (String.mk ([ 'd', 's'] ++ ':' :: [ 'x']))
      = get_ds_uri sampleClient (String.mk ([ 'd', 's'] ++ ':' :: [ 'x'])) :=
  ⟨⟨by decide, by decide, by decide⟩,
   c9_amended sampleClient sampleEnvv (by decide) (by decide) (by decide)
     [ 'd', 's'] [ 'x'] (by decide) (by decide) (by decide)⟩

/-- C10: channel comparison is order-sensitive. Reordering the channel
list trips the `!=` guard, and the recorded value is the symmetric
difference of the two channel sets, which is empty for a permutation;
the diff is nonetheless non-empty, so `is_equal` is false. -/
theorem c10_channel_order_sensitive (m : EnvironmentSchema) (l1 l2 : List String)
    (hc : m.channels = some l1) (hp : l1.Perm l2) (hne : l1 ≠ l2) :
    EnvironmentSchema.compare m { m with channels := some l2 }
      = [("channels", DVal.set (∅ : Finset String))]
    ∧ EnvironmentSchema.is_equal m { m with channels := some l2 } = false := by
  have hset : l1.toFinset = l2.toFinset := List.toFinset_eq_of_perm l1 l2 hp
  have hcomp : EnvironmentSchema.compare m { m with channels := some l2 }
      = [("channels", DVal.set (∅ : Finset String))] := by
    simp [EnvironmentSchema.compare, EnvironmentSchema.compare_channels, hc, hne,
      EnvironmentSchema.compare_dependencies, compareDepLoop_refl, hset,
      symmDiff_self, Finset.bot_eq_empty]
  exact ⟨hcomp, by simp [EnvironmentSchema.is_equal, hcomp]⟩

/-- Witness for C10: the concrete manifest with its two channels swapped. -/
theorem c10_witness :
    (manifestA.channels = some [ "conda-forge", "defaults"]
     ∧ List.Perm [ "conda-forge", "defaults"] [ "defaults", "conda-forge"]
     ∧ [ "conda-forge", "defaults"] ≠ [ "defaults", "conda-forge"])
    ∧ EnvironmentSchema.compare manifestA
        { manifestA with channels := some [ "defaults", "conda-forge"] }
      = [("channels", DVal.set (∅ : Finset String))]
    ∧ EnvironmentSchema.is_equal manifestA
        { manifestA with channels := some [ "defaults", "conda-forge"] } = false :=
  ⟨⟨rfl, by decide, by decide⟩,
   (c10_channel_order_sensitive manifestA [ "conda-forge", "defaults"]
     [ "defaults", "conda-forge"] rfl (by decide) (by decide)).1,
   (c10_channel_order_sensitive manifestA [ "conda-forge", "defaults"]
     [ "defaults", "conda-forge"] rfl (by decide) (by decide)).2⟩
